import Mathlib

/-!
Verification of the Jupiter infrastructure failover scripts.

Shallow embedding of the three Python sources:
  * `failover-automation.py` (manual CLI path): `get_instance_id`, `failover`,
    `failback`, `status`, and the `__main__` command dispatch;
  * `failover-fixed.py` (alarm adapter): `fixedHandler`;
  * `quick-fix-lambda.py` (permissive adapter): `quickFixHandler`.

The AWS side is modelled by an environment `Ec2Env` of resolution maps and
call outcomes; every handler returns the ordered trace of API calls it issued
together with its result.  Logging (`print`) inside the handlers is not
modelled; the CLI dispatch models the lines it prints itself and which
operations it invokes.  Python `str.lower`/`str.upper` are modelled by
ASCII case folding over the character list (all service names are ASCII).
-/

/-- Explicit waiter configuration, as in
`WaiterConfig={'Delay': 10, 'MaxAttempts': 12}` of `failover-fixed.py`.
`delay` is the poll interval in seconds, `maxAttempts` the attempt bound. -/
structure WaiterConfig where
  delay : Nat
  maxAttempts : Nat
deriving DecidableEq

/-- One call to the AWS APIs (EC2 / ELBv2), in the order the scripts issue
them.  `waitRunning` carries the explicit waiter configuration passed by the
caller: `none` means the call site passes no `WaiterConfig` (the manual CLI
path), `some cfg` the explicit bound of the alarm adapter. -/
inductive ApiCall where
  /-- `ec2.describe_instances` filtered by `tag:Name` and a state set. -/
  | describeByTag (tag : String) (states : List String)
  /-- `ec2.describe_instances(InstanceIds=[id])` (used by `status`). -/
  | describeById (id : String)
  /-- `ec2.stop_instances(InstanceIds=[id])`. -/
  | stopInstances (id : String)
  /-- `ec2.start_instances(InstanceIds=[id])`. -/
  | startInstances (id : String)
  /-- `ec2.get_waiter('instance_running').wait(InstanceIds=[id], ...)`. -/
  | waitRunning (id : String) (cfg : Option WaiterConfig)
  /-- `elbv2.deregister_targets`. -/
  | deregisterTargets (tg id : String)
  /-- `elbv2.describe_target_groups` (port lookup). -/
  | describeTargetGroups (tg : String)
  /-- `elbv2.register_targets`. -/
  | registerTargets (tg id : String) (port : Nat)
deriving DecidableEq

/-- A call mutates cloud state iff it is a stop, a start, or a routing-target
registration change; describes and waits are read-only. -/
def ApiCall.isMutating : ApiCall → Bool
  | .stopInstances _ => true
  | .startInstances _ => true
  | .deregisterTargets _ _ => true
  | .registerTargets _ _ _ => true
  | _ => false

/-- A call touches the routing-target (load-balancer) API. -/
def ApiCall.isRoutingCall : ApiCall → Bool
  | .deregisterTargets _ _ => true
  | .describeTargetGroups _ => true
  | .registerTargets _ _ _ => true
  | _ => false

/-- The external world the scripts run against: how tag lookups resolve and
whether each fallible API call succeeds.  `resolve` is the lookup with state
filter `running`/`stopped` (CLI `get_instance_id`); `resolveRunning` the
lookup with state filter `running` only (both Lambda handlers);
`stateOf` the lifecycle state reported for a concrete instance id.
`deregisterOk`/`registerOk` record whether the corresponding ELBv2 calls
raise; both handlers catch those exceptions, so the outcome is swallowed,
but the fields let theorems quantify over it.  `describeTGOk` gates whether
the port lookup succeeds (on failure the register call is never reached). -/
structure Ec2Env where
  resolve : String → Option String
  resolveRunning : String → Option String
  stateOf : String → String
  stopOk : String → Bool
  startOk : String → Bool
  waitOk : String → Bool
  deregisterOk : String → Bool
  describeTGOk : String → Bool
  registerOk : String → Bool
  tgPort : String → Nat

/-- Does `pat` occur as a prefix of `s`?  (Char-list model of Python's
string containment building block.) -/
def charsStartWith : List Char → List Char → Bool
  | [], _ => true
  | _ :: _, [] => false
  | a :: as, b :: bs => a == b && charsStartWith as bs

/-- Does `pat` occur as a contiguous substring of `s`?  Models Python's
`pat in s` for strings. -/
def charsContain (pat : List Char) : List Char → Bool
  | [] => charsStartWith pat []
  | c :: rest => charsStartWith pat (c :: rest) || charsContain pat rest

/-- Python `pat in s` on strings: substring containment. -/
def strContains (s pat : String) : Bool :=
  charsContain pat.data s.data

/-- Python `str.lower`, restricted to ASCII case folding (all strings the
scripts compare are ASCII). -/
def strLower (s : String) : String :=
  ⟨s.data.map Char.toLower⟩

/-- Python `str.upper`, restricted to ASCII case folding. -/
def strUpper (s : String) : String :=
  ⟨s.data.map Char.toUpper⟩

/-- Python `json.dumps` applied to a plain string: wraps it in quotes.
(Escaping is irrelevant for the strings the scripts build.) -/
def jsonDumpsStr (s : String) : String :=
  "\"" ++ s ++ "\""

/-- The characters before the first `'-'` of the list (all of it when no
`'-'` occurs). -/
def beforeFirstDash : List Char → List Char
  | [] => []
  | c :: rest => if c == '-' then [] else c :: beforeFirstDash rest

/-- Python `alarm_name.split('-')[0]`: the prefix of the string up to the
first `'-'`; the whole string when it contains no `'-'` (Python's `split`
never returns an empty list). -/
def splitDashHead (s : String) : String :=
  ⟨beforeFirstDash s.data⟩

/-- `get_instance_id(tag_name)` of `failover-automation.py`: one
`describe_instances` call filtered by `tag:Name == tag` and state in
`running`/`stopped`; returns the first matching instance id, or `none`
when no reservation matches. -/
def get_instance_id (env : Ec2Env) (tag : String) : List ApiCall × Option String :=
  ([ApiCall.describeByTag tag ["running", "stopped"]], env.resolve tag)

/-- `failover(service)` of `failover-automation.py`.  Resolves
`{service}-primary` and `{service}-backup`; returns `False` without any
further call when either is missing; otherwise stops the primary, starts
the backup and waits (no explicit `WaiterConfig`) for the backup to be
running, returning `True`.  An AWS call that raises propagates out of the
function (modelled as `Except.error`). -/
def failover (env : Ec2Env) (service : String) :
    List ApiCall × Except String Bool :=
  let (t1, primary) := get_instance_id env (service ++ "-primary")
  let (t2, backup) := get_instance_id env (service ++ "-backup")
  match primary, backup with
  | some p, some b =>
    let tr := t1 ++ t2 ++ [ApiCall.stopInstances p]
    if env.stopOk p then
      let tr := tr ++ [ApiCall.startInstances b]
      if env.startOk b then
        let tr := tr ++ [ApiCall.waitRunning b none]
        if env.waitOk b then (tr, Except.ok true)
        else (tr, Except.error "WaiterError")
      else (tr, Except.error "StartFailed")
    else (tr, Except.error "StopFailed")
  | _, _ => (t1 ++ t2, Except.ok false)

/-- `failback(service)` of `failover-automation.py`: the mirror image —
stops the backup, starts the primary, waits for the primary. -/
def failback (env : Ec2Env) (service : String) :
    List ApiCall × Except String Bool :=
  let (t1, primary) := get_instance_id env (service ++ "-primary")
  let (t2, backup) := get_instance_id env (service ++ "-backup")
  match primary, backup with
  | some p, some b =>
    let tr := t1 ++ t2 ++ [ApiCall.stopInstances b]
    if env.stopOk b then
      let tr := tr ++ [ApiCall.startInstances p]
      if env.startOk p then
        let tr := tr ++ [ApiCall.waitRunning p none]
        if env.waitOk p then (tr, Except.ok true)
        else (tr, Except.error "WaiterError")
      else (tr, Except.error "StartFailed")
    else (tr, Except.error "StopFailed")
  | _, _ => (t1 ++ t2, Except.ok false)

/-- The status line printed for one service (column padding elided). -/
def statusLine (service p_state b_state : String) : String :=
  service ++ " Primary: " ++ p_state ++ " Backup: " ++ b_state

/-- One iteration of the loop in `status()`: resolve `{service}-primary` and
`{service}-backup`, query each resolved instance's state (unresolved shows
as `"not found"`), and — only for service `nat` when the backup lookup
returned nothing — retry the backup under the alternate name
`nat-secondary`. -/
def statusService (env : Ec2Env) (service : String) : List ApiCall × String :=
  let (t1, primary) := get_instance_id env (service ++ "-primary")
  let (t2, backup) := get_instance_id env (service ++ "-backup")
  let (t3, p_state) :=
    match primary with
    | some p => ([ApiCall.describeById p], env.stateOf p)
    | none => ([], "not found")
  let (t4, b_state) :=
    match backup with
    | some b => ([ApiCall.describeById b], env.stateOf b)
    | none => ([], "not found")
  if service == "nat" && backup.isNone then
    let (t5, backup2) := get_instance_id env "nat-secondary"
    match backup2 with
    | some b =>
      (t1 ++ t2 ++ t3 ++ t4 ++ t5 ++ [ApiCall.describeById b],
       statusLine service p_state (env.stateOf b))
    | none => (t1 ++ t2 ++ t3 ++ t4 ++ t5, statusLine service p_state b_state)
  else
    (t1 ++ t2 ++ t3 ++ t4, statusLine service p_state b_state)

/-- The fixed service list iterated by `status()`. -/
def statusServices : List String :=
  ["signaling", "coturn", "frp", "thingsboard", "nat"]

/-- `status()` of `failover-automation.py`: the loop over all services,
returning the concatenated call trace and the printed status lines. -/
def status (env : Ec2Env) : List ApiCall × List String :=
  ((statusServices.map fun s => (statusService env s).1).flatten,
   statusServices.map fun s => (statusService env s).2)

/-- The usage text printed when the script is run without a command. -/
def usageLines : List String :=
  ["Usage: python3 failover-automation.py <command> [service]",
   "Commands:",
   "  status              - Show status of all services",
   "  failover <service>  - Failover service to backup",
   "  failback <service>  - Failback service to primary",
   "  failover-all        - Failover all services",
   "  failback-all        - Failback all services",
   "\nServices: signaling, coturn, frp, thingsboard"]

/-- Which high-level operation the CLI dispatch invokes (the operations
themselves are modelled separately by `failover`, `failback`, `status`). -/
inductive CliOp where
  | statusOp
  | failoverOp (s : String)
  | failbackOp (s : String)
deriving DecidableEq

/-- The `__main__` dispatch of `failover-automation.py`, as a function of
`sys.argv` (head is the script path).  Returns the lines printed by the
dispatch level itself, the operations invoked in order, and the process
exit status (`sys.exit(1)` on missing or invalid command, `0` otherwise). -/
def mainDispatch (argv : List String) : List String × List CliOp × Nat :=
  match argv with
  | [] => (usageLines, [], 1)
  | [_] => (usageLines, [], 1)
  | _ :: command :: rest =>
    if command == "status" then
      ([], [CliOp.statusOp], 0)
    else if command == "failover" && decide (rest.length > 0) then
      ([], [CliOp.failoverOp (rest.headD ""), CliOp.statusOp], 0)
    else if command == "failback" && decide (rest.length > 0) then
      ([], [CliOp.failbackOp (rest.headD ""), CliOp.statusOp], 0)
    else if command == "failover-all" then
      ([], (["signaling", "coturn", "frp", "thingsboard"].map CliOp.failoverOp)
            ++ [CliOp.statusOp], 0)
    else if command == "failback-all" then
      ([], (["signaling", "coturn", "frp", "thingsboard"].map CliOp.failbackOp)
            ++ [CliOp.statusOp], 0)
    else
      (["Invalid command: " ++ command], [], 1)

/-- The target-group update block (step 5) of `failover-fixed.py` for a
configured target group `tg`: deregister the primary (exception caught, so
always issued and never fatal), then look up the group's port and, when
that lookup succeeds, register the backup on that port (both inside a
second try/except, so again never fatal). -/
def tgUpdateTrace (env : Ec2Env) (tg p b : String) : List ApiCall :=
  [ApiCall.deregisterTargets tg p, ApiCall.describeTargetGroups tg]
    ++ (if env.describeTGOk tg then [ApiCall.registerTargets tg b (env.tgPort tg)] else [])

/-- `handler(event, context)` of `failover-fixed.py`.  The inbound SNS event
is modelled by its parse result: `none` when extracting
`Records[0].Sns.Message`/JSON fails (the `except` path), `some alarmName`
otherwise.  `environ` models `os.environ.get`.  Returns the API-call trace
and the `statusCode`/`body` pair. -/
def fixedHandler (env : Ec2Env) (environ : String → Option String)
    (event : Option String) : List ApiCall × Nat × String :=
  match event with
  | none => ([], 400, "Invalid event format")
  | some alarm_name =>
    let service := splitDashHead alarm_name
    let backup_id? := environ ("BACKUP_" ++ strUpper service)
    let target_group? := environ ("TG_" ++ strUpper service)
    match backup_id? with
    | none => ([], 404, "No backup for " ++ service)
    | some backup_id =>
      let t1 := [ApiCall.describeByTag (service ++ "-primary") ["running"]]
      match env.resolveRunning (service ++ "-primary") with
      | none => (t1, 404, "Primary not found")
      | some primary_id =>
        let tr := t1 ++ [ApiCall.stopInstances primary_id]
        if !env.stopOk primary_id then (tr, 500, "Failover failed")
        else
          let tr := tr ++ [ApiCall.startInstances backup_id]
          if !env.startOk backup_id then (tr, 500, "Failover failed")
          else
            let tr := tr ++ [ApiCall.waitRunning backup_id (some ⟨10, 12⟩)]
            if !env.waitOk backup_id then (tr, 500, "Failover failed")
            else
              match target_group? with
              | none =>
                (tr, 200, jsonDumpsStr ("Failover complete for " ++ service))
              | some tg =>
                (tr ++ tgUpdateTrace env tg primary_id backup_id, 200,
                 jsonDumpsStr ("Failover complete for " ++ service))

/-- The service-selection loop of `quick-fix-lambda.py`: first known service
name occurring as a substring of the (already lowercased) serialized event
wins; list order is fixed. -/
def quickFixSelect (event_str : String) : Option String :=
  ["signaling", "coturn", "frp", "thingsboard"].find? fun s => strContains event_str s

/-- `handler(event, context)` of `quick-fix-lambda.py`, as a function of the
serialized event text `eventStr` (the handler observes the event only
through `json.dumps(event)`).  Lowercases the text, scans it for a known
service name, and performs the reduced failover: stop the primary only if
one resolves as running (lookup failure is non-fatal), then start the
configured backup. -/
def quickFixHandler (env : Ec2Env) (environ : String → Option String)
    (eventStr : String) : List ApiCall × Nat × String :=
  let event_str := strLower eventStr
  match quickFixSelect event_str with
  | none => ([], 200, "No service identified")
  | some service =>
    match environ ("BACKUP_" ++ strUpper service) with
    | none => ([], 404, "No backup for " ++ service)
    | some backup_id =>
      let t1 := [ApiCall.describeByTag (service ++ "-primary") ["running"]]
      match env.resolveRunning (service ++ "-primary") with
      | none =>
        let tr := t1 ++ [ApiCall.startInstances backup_id]
        if env.startOk backup_id then
          (tr, 200, jsonDumpsStr ("Failover complete for " ++ service))
        else (tr, 500, "Error")
      | some primary_id =>
        let tr := t1 ++ [ApiCall.stopInstances primary_id]
        if !env.stopOk primary_id then (tr, 500, "Error")
        else
          let tr := tr ++ [ApiCall.startInstances backup_id]
          if env.startOk backup_id then
            (tr, 200, jsonDumpsStr ("Failover complete for " ++ service))
          else (tr, 500, "Error")

/-! ### Concrete fixtures used by witnesses and counterexamples -/

/-- A world in which the `coturn` instances resolve (primary `i-cp`, backup
`i-cb`) and every API call succeeds. -/
def envAllGood : Ec2Env :=
  { resolve := fun t =>
      if t == "coturn-primary" then some "i-cp"
      else if t == "coturn-backup" then some "i-cb" else none,
    resolveRunning := fun t => if t == "coturn-primary" then some "i-cp" else none,
    stateOf := fun _ => "running",
    stopOk := fun _ => true,
    startOk := fun _ => true,
    waitOk := fun _ => true,
    deregisterOk := fun _ => true,
    describeTGOk := fun _ => true,
    registerOk := fun _ => true,
    tgPort := fun _ => 3478 }

/-- Configuration holding only a backup id for coturn (no target group). -/
def environNoTG : String → Option String :=
  fun k => if k == "BACKUP_COTURN" then some "i-cb" else none

/-- Configuration holding a backup id and a target group for coturn. -/
def environWithTG : String → Option String :=
  fun k =>
    if k == "BACKUP_COTURN" then some "i-cb"
    else if k == "TG_COTURN" then some "tg-coturn" else none

/-- `envAllGood` except that every wait-until-running poll exceeds its
bound (the waiter raises). -/
def envWaitFail : Ec2Env :=
  { envAllGood with waitOk := fun _ => false }

/-- A world in which no tag lookup resolves anything. -/
def envNone : Ec2Env :=
  { resolve := fun _ => none,
    resolveRunning := fun _ => none,
    stateOf := fun _ => "running",
    stopOk := fun _ => true,
    startOk := fun _ => true,
    waitOk := fun _ => true,
    deregisterOk := fun _ => true,
    describeTGOk := fun _ => true,
    registerOk := fun _ => true,
    tgPort := fun _ => 3478 }

/-- The same world with every routing-target (ELBv2) call failing: the
deregister call raises, the port lookup raises, and the register call
raises.  All other behaviour is unchanged. -/
def disableRouting (env : Ec2Env) : Ec2Env :=
  { env with
    deregisterOk := fun _ => false,
    describeTGOk := fun _ => false,
    registerOk := fun _ => false }

/-- A world in which `nat-backup` resolves but `nat-primary` does not. -/
def envNatPrimaryMissing : Ec2Env :=
  { envNone with resolve := fun t => if t == "nat-backup" then some "i-nb" else none }

/-! ### Helper lemmas -/

theorem char_toNat_ofNat_of_valid {n : Nat} (h : n.isValidChar) :
    (Char.ofNat n).toNat = n := by
  simp [Char.ofNat, dif_pos h, Char.ofNatAux, Char.toNat, UInt32.toNat, BitVec.toNat_ofNatLt]

theorem char_toLower_idem (c : Char) : c.toLower.toLower = c.toLower := by
  unfold Char.toLower
  simp only
  by_cases h : c.toNat ≥ 65 ∧ c.toNat ≤ 90
  · rw [if_pos h]
    have hv : Nat.isValidChar (c.toNat + 32) := by
      left
      have : c.toNat ≤ 90 := h.2
      omega
    have hn := char_toNat_ofNat_of_valid hv
    rw [hn, if_neg]
    omega
  · rw [if_neg h, if_neg h]

theorem strLower_idem (s : String) : strLower (strLower s) = strLower s := by
  simp [strLower, List.map_map, Function.comp_def, char_toLower_idem]

/-! ### Claims -/

/-- **C1.** For every service whose primary and backup instances are both
resolvable (in both the manual CLI variant and the alarm adapter), the
Failover operation issues its mutating calls in this order: stop primary,
then start backup, then wait until the backup is running, and it signals
success (`True` resp. status 200) exactly when the backup is confirmed
running by that wait. -/
theorem failover_call_order (env : Ec2Env) (environ : String → Option String)
    (s alarm p b : String)
    (hp : env.resolve (s ++ "-primary") = some p)
    (hb : env.resolve (s ++ "-backup") = some b)
    (halarm : splitDashHead alarm = s)
    (hpr : env.resolveRunning (s ++ "-primary") = some p)
    (hbe : environ ("BACKUP_" ++ strUpper s) = some b)
    (hstop : env.stopOk p = true)
    (hstart : env.startOk b = true) :
    failover env s =
      ([ApiCall.describeByTag (s ++ "-primary") ["running", "stopped"],
        ApiCall.describeByTag (s ++ "-backup") ["running", "stopped"],
        ApiCall.stopInstances p, ApiCall.startInstances b,
        ApiCall.waitRunning b none],
       if env.waitOk b then Except.ok true else Except.error "WaiterError")
    ∧ fixedHandler env environ (some alarm) =
      (if env.waitOk b then
        ([ApiCall.describeByTag (s ++ "-primary") ["running"],
          ApiCall.stopInstances p, ApiCall.startInstances b,
          ApiCall.waitRunning b (some ⟨10, 12⟩)]
          ++ (match environ ("TG_" ++ strUpper s) with
              | none => []
              | some tg => tgUpdateTrace env tg p b),
         200, jsonDumpsStr ("Failover complete for " ++ s))
      else
        ([ApiCall.describeByTag (s ++ "-primary") ["running"],
          ApiCall.stopInstances p, ApiCall.startInstances b,
          ApiCall.waitRunning b (some ⟨10, 12⟩)],
         500, "Failover failed")) := by
  constructor
  · simp only [failover, get_instance_id, hp, hb, hstop, hstart, if_true]
    by_cases hw : env.waitOk b <;> simp [hw]
  · simp only [fixedHandler, halarm, hbe, hpr, hstop, hstart]
    by_cases hw : env.waitOk b
    · simp only [hw, if_true, Bool.not_true, Bool.false_eq_true, if_false]
      cases htg : environ ("TG_" ++ strUpper s) <;> simp [htg]
    · simp [hw]

/-- Witness for `failover_call_order`: the concrete world `envAllGood`,
service `coturn`, alarm `coturn-health-check`. -/
theorem failover_call_order_witness :
    failover envAllGood "coturn" =
      ([ApiCall.describeByTag "coturn-primary" ["running", "stopped"],
        ApiCall.describeByTag "coturn-backup" ["running", "stopped"],
        ApiCall.stopInstances "i-cp", ApiCall.startInstances "i-cb",
        ApiCall.waitRunning "i-cb" none], Except.ok true)
    ∧ fixedHandler envAllGood environNoTG (some "coturn-health-check") =
      ([ApiCall.describeByTag "coturn-primary" ["running"],
        ApiCall.stopInstances "i-cp", ApiCall.startInstances "i-cb",
        ApiCall.waitRunning "i-cb" (some ⟨10, 12⟩)], 200,
       jsonDumpsStr "Failover complete for coturn") := by
  have h := failover_call_order envAllGood environNoTG "coturn" "coturn-health-check"
    "i-cp" "i-cb" (by decide) (by decide) (by decide) (by decide) (by decide)
    (by decide) (by decide)
  simpa using h

/-- **C2.** In every variant, when the backup instance cannot be resolved
(no matching instance in the CLI variant; no `BACKUP_*` configuration
entry in the two event-driven variants), no mutating call is issued and the
operation reports NotFound (`False` in the CLI variant; a 404 code/body
pair in the event-driven variants). -/
theorem backup_unresolved_no_mutation
    (env : Ec2Env) (environ : String → Option String)
    (s alarm eventStr svc : String)
    (hb : env.resolve (s ++ "-backup") = none)
    (hbe : environ ("BACKUP_" ++ strUpper (splitDashHead alarm)) = none)
    (hsel : quickFixSelect (strLower eventStr) = some svc)
    (hbq : environ ("BACKUP_" ++ strUpper svc) = none) :
    ((failover env s).1.filter ApiCall.isMutating = []
      ∧ (failover env s).2 = Except.ok false)
    ∧ fixedHandler env environ (some alarm) =
        ([], 404, "No backup for " ++ splitDashHead alarm)
    ∧ quickFixHandler env environ eventStr =
        ([], 404, "No backup for " ++ svc) := by
  refine ⟨⟨?_, ?_⟩, ?_, ?_⟩
  · cases hp : env.resolve (s ++ "-primary") <;>
      simp [failover, get_instance_id, hp, hb, ApiCall.isMutating]
  · cases hp : env.resolve (s ++ "-primary") <;>
      simp [failover, get_instance_id, hp, hb]
  · simp [fixedHandler, hbe]
  · simp [quickFixHandler, hsel, hbq]

/-- Witness for `backup_unresolved_no_mutation`: no tag resolves and the
configuration is empty; service `coturn`, alarm `coturn-health-check`,
event text containing `coturn`. -/
theorem backup_unresolved_no_mutation_witness :
    ((failover envNone "coturn").1.filter ApiCall.isMutating = []
      ∧ (failover envNone "coturn").2 = Except.ok false)
    ∧ fixedHandler envNone (fun _ => none) (some "coturn-health-check") =
        ([], 404, "No backup for coturn")
    ∧ quickFixHandler envNone (fun _ => none) "alarm for coturn" =
        ([], 404, "No backup for coturn") := by
  have h := backup_unresolved_no_mutation envNone (fun _ => none)
    "coturn" "coturn-health-check" "alarm for coturn" "coturn"
    (by decide) (by decide) (by decide) (by decide)
  simpa using h

/-- **C3.** The wait-until-running step is bounded in the alarm-adapter path
— the wait call carries the explicit policy `Delay 10`/`MaxAttempts 12` and
exceeding the bound makes the handler report failure (500) — while the
manual CLI path issues the same wait with no bound configured; the two
paths diverge on this point. -/
theorem wait_bound_divergence
    (env : Ec2Env) (environ : String → Option String)
    (s alarm p b : String)
    (hp : env.resolve (s ++ "-primary") = some p)
    (hb : env.resolve (s ++ "-backup") = some b)
    (halarm : splitDashHead alarm = s)
    (hpr : env.resolveRunning (s ++ "-primary") = some p)
    (hbe : environ ("BACKUP_" ++ strUpper s) = some b)
    (hstop : env.stopOk p = true)
    (hstart : env.startOk b = true) :
    ApiCall.waitRunning b none ∈ (failover env s).1
    ∧ ApiCall.waitRunning b (some ⟨10, 12⟩) ∈ (fixedHandler env environ (some alarm)).1
    ∧ (env.waitOk b = false → (fixedHandler env environ (some alarm)).2.1 = 500)
    ∧ (none : Option WaiterConfig) ≠ some ⟨10, 12⟩ := by
  refine ⟨?_, ?_, ?_, by decide⟩
  · by_cases hw : env.waitOk b <;>
      simp [failover, get_instance_id, hp, hb, hstop, hstart, hw]
  · by_cases hw : env.waitOk b
    · cases htg : environ ("TG_" ++ strUpper s) <;>
        simp [fixedHandler, halarm, hbe, hpr, hstop, hstart, hw, htg]
    · simp [fixedHandler, halarm, hbe, hpr, hstop, hstart, hw]
  · intro hw
    simp [fixedHandler, halarm, hbe, hpr, hstop, hstart, hw]

/-- Witness for `wait_bound_divergence`: the world `envWaitFail`, in which
the waiter times out, so the alarm adapter's bounded wait yields a 500. -/
theorem wait_bound_divergence_witness :
    ApiCall.waitRunning "i-cb" none ∈ (failover envWaitFail "coturn").1
    ∧ ApiCall.waitRunning "i-cb" (some ⟨10, 12⟩)
        ∈ (fixedHandler envWaitFail environNoTG (some "coturn-health-check")).1
    ∧ (fixedHandler envWaitFail environNoTG (some "coturn-health-check")).2.1 = 500 := by
  have h := wait_bound_divergence envWaitFail environNoTG "coturn" "coturn-health-check"
    "i-cp" "i-cb" (by decide) (by decide) (by decide) (by decide) (by decide)
    (by decide) (by decide)
  exact ⟨h.1, h.2.1, h.2.2.1 (by decide)⟩

/-- **C4 (counterexample).** A payload whose serialized text contains
`coturn` but also contains `signaling` (which precedes it in the scan
list): the permissive adapter selects `signaling`, not `coturn`, and —
with no backup configured for signaling — returns 404 without starting
coturn's configured backup.  So, as stated, "every payload containing
`coturn` selects `coturn`" is false. -/
theorem coturn_substring_counterexample :
    strContains (strLower "alarm: signaling and coturn down") "coturn" = true
    ∧ quickFixSelect (strLower "alarm: signaling and coturn down") = some "signaling"
    ∧ "signaling" ≠ "coturn"
    ∧ quickFixHandler envNone environNoTG "alarm: signaling and coturn down" =
        ([], 404, "No backup for signaling") := by
  exact ⟨by decide, by decide, by decide, by decide⟩

/-- **C4 (amended).** For every event payload whose serialized text contains
`coturn` and does not contain the service name scanned before it
(`signaling`), and for which a backup instance is configured for coturn,
the permissive adapter selects `coturn` and starts coturn's backup even
when no running primary instance can be resolved: the failed primary
lookup does not prevent the backup start. -/
theorem coturn_substring_selects_and_starts_backup
    (env : Ec2Env) (environ : String → Option String) (eventStr bid : String)
    (hct : strContains (strLower eventStr) "coturn" = true)
    (hsig : strContains (strLower eventStr) "signaling" = false)
    (hbe : environ "BACKUP_COTURN" = some bid)
    (hpr : env.resolveRunning "coturn-primary" = none)
    (hstart : env.startOk bid = true) :
    quickFixSelect (strLower eventStr) = some "coturn"
    ∧ quickFixHandler env environ eventStr =
        ([ApiCall.describeByTag "coturn-primary" ["running"],
          ApiCall.startInstances bid], 200,
         jsonDumpsStr "Failover complete for coturn") := by
  have hkey : ("BACKUP_" ++ strUpper "coturn") = "BACKUP_COTURN" := by decide
  have htag : ("coturn" ++ "-primary") = "coturn-primary" := by decide
  have hbody : ("Failover complete for " ++ "coturn") = "Failover complete for coturn" := by
    decide
  have hsel : quickFixSelect (strLower eventStr) = some "coturn" := by
    simp [quickFixSelect, List.find?, hsig, hct]
  refine ⟨hsel, ?_⟩
  simp [quickFixHandler, hsel, hkey, hbe, htag, hpr, hstart, hbody]

/-- Witness for `coturn_substring_selects_and_starts_backup`: a payload
naming only coturn, a configured backup `i-cb`, and a world with no
running primary. -/
theorem coturn_substring_selects_and_starts_backup_witness :
    quickFixSelect (strLower "alarm: coturn health check failed") = some "coturn"
    ∧ quickFixHandler envNone environNoTG "alarm: coturn health check failed" =
        ([ApiCall.describeByTag "coturn-primary" ["running"],
          ApiCall.startInstances "i-cb"], 200,
         jsonDumpsStr "Failover complete for coturn") := by
  have h := coturn_substring_selects_and_starts_backup envNone environNoTG
    "alarm: coturn health check failed" "i-cb"
    (by decide) (by decide) (by decide) (by decide) (by decide)
  exact h

/-- **C5.** For every otherwise-successful alarm-adapter failover with a
routing target configured, the reported result is the 200 success pair for
every outcome of the routing-target calls; in particular it is still 200
in the world where the deregister call, the port lookup and the register
call all raise (those failures are caught and only logged). -/
theorem routing_failure_does_not_affect_success
    (env : Ec2Env) (environ : String → Option String)
    (alarm p b tg : String)
    (hpr : env.resolveRunning (splitDashHead alarm ++ "-primary") = some p)
    (hbe : environ ("BACKUP_" ++ strUpper (splitDashHead alarm)) = some b)
    (htg : environ ("TG_" ++ strUpper (splitDashHead alarm)) = some tg)
    (hstop : env.stopOk p = true)
    (hstart : env.startOk b = true)
    (hwait : env.waitOk b = true) :
    (fixedHandler env environ (some alarm)).2.1 = 200
    ∧ (fixedHandler (disableRouting env) environ (some alarm)).2.1 = 200 := by
  constructor <;>
    simp [fixedHandler, disableRouting, hpr, hbe, htg, hstop, hstart, hwait]

/-- Witness for `routing_failure_does_not_affect_success`: coturn with a
configured target group; success is reported both when routing calls
succeed and when they all fail. -/
theorem routing_failure_does_not_affect_success_witness :
    (fixedHandler envAllGood environWithTG (some "coturn-health-check")).2.1 = 200
    ∧ (fixedHandler (disableRouting envAllGood) environWithTG
        (some "coturn-health-check")).2.1 = 200 := by
  have h := routing_failure_does_not_affect_success envAllGood environWithTG
    "coturn-health-check" "i-cp" "i-cb" "tg-coturn"
    (by decide) (by decide) (by decide) (by decide) (by decide) (by decide)
  exact h

/-- **C6.** Failback is the mirror of Failover with roles reversed: with
both instances resolvable it stops the backup, starts the primary, and
waits for the primary to reach running (success exactly when that wait
confirms it); and the failback path issues no routing-target call in any
run (the other two variants have no failback path at all). -/
theorem failback_mirror (env : Ec2Env) (s : String) :
    ((failback env s).1.filter ApiCall.isRoutingCall = [])
    ∧ ∀ p b, env.resolve (s ++ "-primary") = some p →
        env.resolve (s ++ "-backup") = some b →
        env.stopOk b = true → env.startOk p = true →
        failback env s =
          ([ApiCall.describeByTag (s ++ "-primary") ["running", "stopped"],
            ApiCall.describeByTag (s ++ "-backup") ["running", "stopped"],
            ApiCall.stopInstances b, ApiCall.startInstances p,
            ApiCall.waitRunning p none],
           if env.waitOk p then Except.ok true else Except.error "WaiterError") := by
  constructor
  · cases hp : env.resolve (s ++ "-primary") <;>
      cases hb : env.resolve (s ++ "-backup") <;>
        simp only [failback, get_instance_id, hp, hb] <;>
          (try split_ifs) <;> simp [ApiCall.isRoutingCall]
  · intro p b hp hb hstop hstart
    simp only [failback, get_instance_id, hp, hb, hstop, hstart, if_true]
    by_cases hw : env.waitOk p <;> simp [hw]

/-- Witness for `failback_mirror`: the concrete world `envAllGood` and the
service `coturn`. -/
theorem failback_mirror_witness :
    ((failback envAllGood "coturn").1.filter ApiCall.isRoutingCall = [])
    ∧ failback envAllGood "coturn" =
        ([ApiCall.describeByTag "coturn-primary" ["running", "stopped"],
          ApiCall.describeByTag "coturn-backup" ["running", "stopped"],
          ApiCall.stopInstances "i-cb", ApiCall.startInstances "i-cp",
          ApiCall.waitRunning "i-cp" none],
         Except.ok true) := by
  have h := failback_mirror envAllGood "coturn"
  have h2 := h.2 "i-cp" "i-cb" (by decide) (by decide) (by decide) (by decide)
  exact ⟨h.1, by simpa using h2⟩

/-- **C7 (counterexample).** The unknown command `deploy`: the program exits
with status 1 but prints only `Invalid command: deploy` — not the usage
text, which is printed only when no command is given at all. -/
theorem invalid_command_counterexample :
    mainDispatch ["failover-automation.py", "deploy"] =
      (["Invalid command: deploy"], [], 1)
    ∧ (mainDispatch ["failover-automation.py", "deploy"]).1 ≠ usageLines := by
  exact ⟨by decide, by decide⟩

/-- **C7 (amended).** For every CLI invocation whose first argument is not
one of the known commands (`status`, `failover`, `failback`,
`failover-all`, `failback-all`), the program prints an invalid-command
message naming that argument and exits with the non-zero status 1 (the
usage text is printed only when no command is given). -/
theorem invalid_command_exits_nonzero (prog cmd : String) (rest : List String)
    (h : cmd ∉ (["status", "failover", "failback",
                 "failover-all", "failback-all"] : List String)) :
    mainDispatch (prog :: cmd :: rest) = (["Invalid command: " ++ cmd], [], 1) := by
  simp only [List.mem_cons, List.not_mem_nil, or_false, not_or] at h
  obtain ⟨h1, h2, h3, h4, h5⟩ := h
  simp [mainDispatch, h1, h2, h3, h4, h5]

/-- Witness for `invalid_command_exits_nonzero`: the unknown command
`bogus`. -/
theorem invalid_command_exits_nonzero_witness :
    mainDispatch ["failover-automation.py", "bogus"] =
      (["Invalid command: bogus"], [], 1) := by
  exact invalid_command_exits_nonzero "failover-automation.py" "bogus" [] (by decide)

/-- **C8 (counterexample).** A world in which the `nat` primary lookup
fails but the backup lookup succeeds: `status` performs no
`nat-secondary` fallback lookup, so "the fallback is tried if the primary
lookup fails" is false — the fallback condition reads the backup lookup,
not the primary one. -/
theorem nat_fallback_counterexample :
    envNatPrimaryMissing.resolve "nat-primary" = none
    ∧ ApiCall.describeByTag "nat-secondary" ["running", "stopped"]
        ∉ (status envNatPrimaryMissing).1 := by
  exact ⟨by decide, by decide⟩

/-- **C8 (amended).** In the Status operation, for the one service with an
alternate naming convention (`nat`, alternate suffix `-secondary`), the
fallback alternate backup-naming lookup is tried if the **backup** lookup
(`nat-backup`) fails. -/
theorem nat_fallback_on_backup_missing (env : Ec2Env)
    (hb : env.resolve "nat-backup" = none) :
    ApiCall.describeByTag "nat-secondary" ["running", "stopped"]
      ∈ (status env).1 := by
  have hmem : ApiCall.describeByTag "nat-secondary" ["running", "stopped"]
      ∈ (statusService env "nat").1 := by
    cases hp : env.resolve "nat-primary" <;>
      cases hs : env.resolve "nat-secondary" <;>
        simp [statusService, get_instance_id, hp, hb, hs]
  have hlist : (statusService env "nat").1
      ∈ statusServices.map fun s => (statusService env s).1 := by
    simp [statusServices]
  exact List.mem_flatten.2 ⟨_, hlist, hmem⟩

/-- Witness for `nat_fallback_on_backup_missing`: the empty world, in which
no tag (in particular `nat-backup`) resolves. -/
theorem nat_fallback_on_backup_missing_witness :
    ApiCall.describeByTag "nat-secondary" ["running", "stopped"]
      ∈ (status envNone).1 := by
  exact nat_fallback_on_backup_missing envNone (by decide)

/-- **C9.** For every event payload whose serialized text contains none of
the known service names (`signaling`, `coturn`, `frp`, `thingsboard`) as a
substring, the permissive adapter performs no compute-API call at all and
returns the success code 200 with body `No service identified` — not a
404 or a 400. -/
theorem no_service_identified
    (env : Ec2Env) (environ : String → Option String) (eventStr : String)
    (h1 : strContains (strLower eventStr) "signaling" = false)
    (h2 : strContains (strLower eventStr) "coturn" = false)
    (h3 : strContains (strLower eventStr) "frp" = false)
    (h4 : strContains (strLower eventStr) "thingsboard" = false) :
    quickFixHandler env environ eventStr = ([], 200, "No service identified") := by
  have hsel : quickFixSelect (strLower eventStr) = none := by
    simp [quickFixSelect, List.find?, h1, h2, h3, h4]
  simp [quickFixHandler, hsel]

/-- Witness for `no_service_identified`: an event payload mentioning none
of the service names. -/
theorem no_service_identified_witness :
    quickFixHandler envNone (fun _ => none) "source: aws.ec2 cpu alarm high" =
      ([], 200, "No service identified") := by
  exact no_service_identified envNone (fun _ => none) "source: aws.ec2 cpu alarm high"
    (by decide) (by decide) (by decide) (by decide)

/-- **C10.** The permissive adapter's service-name detection is
case-insensitive: the serialized event text is lowercased before the
substring scan, so the handler behaves identically on a payload and on its
all-lowercase form — in particular the same service is selected. -/
theorem selection_case_insensitive
    (env : Ec2Env) (environ : String → Option String) (eventStr : String) :
    quickFixHandler env environ eventStr
      = quickFixHandler env environ (strLower eventStr)
    ∧ quickFixSelect (strLower eventStr)
      = quickFixSelect (strLower (strLower eventStr)) := by
  constructor
  · simp only [quickFixHandler, strLower_idem]
  · rw [strLower_idem]
